import Mathlib

/-!
Shallow embedding of the event-planner action layer
(`src/src/actions/index.ts` over the tables of `db/tables.ts`).

Modelling conventions:
* The database is a `Store` of three row lists (Events, EventTasks, EventGuests).
  `db.select().from(T).where(eq(T.id, x))[0]` becomes `List.find?`;
  `db.insert` appends; `db.delete ... where` filters; `db.update ... set`
  maps the update over every row matched by the `where` clause, assigning
  exactly the fields the handler put into its `updates` object (a field
  assigned `undefined` overwrites, as in the JS spread that builds the
  returned record).
* `new Date()` timestamps are an abstract `now : Nat` parameter;
  `crypto.randomUUID()` is an abstract `freshId : String` parameter.
* ISO datetime strings stay `String`; nullable columns are `Option`.
* The authenticated actor (`context.locals.user`) is an `Option String`
  (the user id); `ActionError` codes become the `Err` inductive, with
  `Err.validation` for a zod input-schema rejection (astro surfaces it
  before the handler runs).
* zod defaults that fire before the handler (`status` on createEvent and
  upsertEventTask) are modelled as an explicit parse step composed in
  front of the handler.
-/

inductive Err where
  | unauthorized
  | notFound
  | forbidden
  | validation
deriving DecidableEq, Repr

/-- Row of the `Events` table (`db/tables.ts`). -/
structure Event where
  id : String
  ownerUserId : String
  title : String
  description : Option String
  startDateTime : Option String
  endDateTime : Option String
  timeZone : Option String
  locationName : Option String
  locationAddress : Option String
  locationMapLink : Option String
  status : Option String
  createdAt : Nat
  updatedAt : Nat
deriving DecidableEq, Repr

/-- Row of the `EventTasks` table (`db/tables.ts`). -/
structure EventTask where
  id : String
  eventId : String
  userId : Option String
  title : String
  description : Option String
  dueDate : Option String
  status : Option String
  priority : Option String
  createdAt : Nat
  updatedAt : Nat
deriving DecidableEq, Repr

/-- Row of the `EventGuests` table (`db/tables.ts`); no `updatedAt` column. -/
structure EventGuest where
  id : String
  eventId : String
  name : String
  email : Option String
  phone : Option String
  rsvpStatus : Option String
  notes : Option String
  invitedAt : Option String
  respondedAt : Option String
  createdAt : Nat
deriving DecidableEq, Repr

/-- The persisted state: the three tables. -/
structure Store where
  events : List Event
  tasks : List EventTask
  guests : List EventGuest
deriving DecidableEq, Repr

/-- `requireUser` (`index.ts` lines 6-18): throws UNAUTHORIZED when no user
is attached to the request context. -/
def requireUser (user : Option String) : Except Err String :=
  match user with
  | none => .error .unauthorized
  | some uid => .ok uid

/-- `parseOptionalDate` (`index.ts` lines 20-22): `value ? new Date(value) :
undefined` — an absent or empty (falsy) string becomes `undefined`. -/
def parseOptionalDate (value : Option String) : Option String :=
  match value with
  | some s => if s = "" then none else some s
  | none => none

/-- `getEventForUser` (`index.ts` lines 24-44): load the event by id,
NOT_FOUND if absent, FORBIDDEN unless the actor is its owner. -/
def getEventForUser (userId : String) (eventId : String) (s : Store) :
    Except Err Event :=
  match s.events.find? (fun e => e.id == eventId) with
  | none => .error .notFound
  | some event =>
    if event.ownerUserId ≠ userId then .error .forbidden
    else .ok event

/-- Input of `createEvent` after zod parsing, except that `status` is kept
optional: the zod `.default("planning")` and the handler's
`input.status ?? "planning"` agree, and both are captured by
`Option.getD "planning"` in the handler below. -/
structure CreateEventInput where
  title : String
  description : Option String
  startDateTime : Option String
  endDateTime : Option String
  timeZone : Option String
  locationName : Option String
  locationAddress : Option String
  locationMapLink : Option String
  status : Option String
deriving DecidableEq, Repr

/-- zod constraints of the `createEvent` schema that matter to the claims:
`title` has `min(1)` and the datetime fields are ISO datetimes (never the
empty string). -/
def validCreateEventInput (i : CreateEventInput) : Prop :=
  i.title ≠ "" ∧ i.startDateTime ≠ some "" ∧ i.endDateTime ≠ some ""

/-- The event object built by the `createEvent` handler (`index.ts`
lines 68-82). -/
def newEvent (input : CreateEventInput) (uid : String) (now : Nat)
    (freshId : String) : Event :=
  { id := freshId
    ownerUserId := uid
    title := input.title
    description := input.description
    startDateTime := parseOptionalDate input.startDateTime
    endDateTime := parseOptionalDate input.endDateTime
    timeZone := input.timeZone
    locationName := input.locationName
    locationAddress := input.locationAddress
    locationMapLink := input.locationMapLink
    status := some (input.status.getD "planning")
    createdAt := now
    updatedAt := now }

/-- `createEvent` handler (`index.ts` lines 52-91). -/
def createEvent (user : Option String) (input : CreateEventInput) (now : Nat)
    (freshId : String) (s : Store) : Except Err (Store × Event) := do
  let uid ← requireUser user
  let event := newEvent input uid now freshId
  .ok ({ s with events := s.events ++ [event] }, event)

/-- Input of `updateEvent` after zod parsing. -/
structure UpdateEventInput where
  id : String
  title : Option String
  description : Option String
  startDateTime : Option String
  endDateTime : Option String
  timeZone : Option String
  locationName : Option String
  locationAddress : Option String
  locationMapLink : Option String
  status : Option String
deriving DecidableEq, Repr

/-- The `.refine` on the `updateEvent` schema (`index.ts` lines 107-121):
at least one updatable field must be present. -/
def hasUpdateField (input : UpdateEventInput) : Bool :=
  input.title.isSome || input.description.isSome ||
  input.startDateTime.isSome || input.endDateTime.isSome ||
  input.timeZone.isSome || input.locationName.isSome ||
  input.locationAddress.isSome || input.locationMapLink.isSome ||
  input.status.isSome

/-- The `updates` object of `updateEvent` (`index.ts` lines 127-144) merged
into a row, as the spread `{ ...existing, ...updates }` and the
`set(updates)` both do: a field is assigned iff it was present in the
input, and `updatedAt` is always stamped. -/
def applyEventUpdates (e : Event) (input : UpdateEventInput) (now : Nat) :
    Event :=
  { e with
    title := input.title.getD e.title
    description := match input.description with
      | some d => some d
      | none => e.description
    startDateTime := match input.startDateTime with
      | some d => parseOptionalDate (some d)
      | none => e.startDateTime
    endDateTime := match input.endDateTime with
      | some d => parseOptionalDate (some d)
      | none => e.endDateTime
    timeZone := match input.timeZone with
      | some v => some v
      | none => e.timeZone
    locationName := match input.locationName with
      | some v => some v
      | none => e.locationName
    locationAddress := match input.locationAddress with
      | some v => some v
      | none => e.locationAddress
    locationMapLink := match input.locationMapLink with
      | some v => some v
      | none => e.locationMapLink
    status := match input.status with
      | some v => some v
      | none => e.status
    updatedAt := now }

/-- `updateEvent` handler body (`index.ts` lines 122-152), reached only
after the schema refine passed. -/
def updateEventHandler (user : Option String) (input : UpdateEventInput)
    (now : Nat) (s : Store) : Except Err (Store × Event) := do
  let uid ← requireUser user
  let existing ← getEventForUser uid input.id s
  let upd := fun e => if e.id == input.id then applyEventUpdates e input now else e
  let s' : Store := { s with events := s.events.map upd }
  .ok (s', applyEventUpdates existing input now)

/-- The full `updateEvent` action: zod validation (the `.refine`) runs
before the handler, so an empty update is rejected before any store or
session access. -/
def updateEvent (user : Option String) (input : UpdateEventInput)
    (now : Nat) (s : Store) : Except Err (Store × Event) :=
  if hasUpdateField input then updateEventHandler user input now s
  else .error .validation

/-- `deleteEvent` (`index.ts` lines 154-168): authorize, then delete the
event row and every task and guest row referencing it. -/
def deleteEvent (user : Option String) (eventId : String) (s : Store) :
    Except Err Store := do
  let uid ← requireUser user
  let _ ← getEventForUser uid eventId s
  let s1 : Store := { s with events := s.events.filter (fun e => e.id != eventId) }
  let s2 : Store := { s1 with tasks := s1.tasks.filter (fun t => t.eventId != eventId) }
  let s3 : Store := { s2 with guests := s2.guests.filter (fun g => g.eventId != eventId) }
  .ok s3

/-- `listMyEvents` (`index.ts` lines 170-186). -/
def listMyEvents (user : Option String) (status : Option String) (s : Store) :
    Except Err (List Event × Nat) := do
  let uid ← requireUser user
  let events := match status with
    | some st => s.events.filter (fun e => e.ownerUserId == uid && e.status == some st)
    | none => s.events.filter (fun e => e.ownerUserId == uid)
  .ok (events, events.length)

/-- `getEventWithDetails` (`index.ts` lines 188-210): authorize, then fetch
the event's tasks and guests (two independent reads, no mutation). -/
def getEventWithDetails (user : Option String) (eventId : String) (s : Store) :
    Except Err (Event × List EventTask × List EventGuest) := do
  let uid ← requireUser user
  let event ← getEventForUser uid eventId s
  let tasks := s.tasks.filter (fun t => t.eventId == eventId)
  let guests := s.guests.filter (fun g => g.eventId == eventId)
  .ok (event, tasks, guests)

/-- Input of `upsertEventTask` as seen by the handler. `status` is
`Option` so the handler's `input.status ?? existing.status` fallback can
be expressed; the zod `.default("todo")` is the separate parse step
`parseUpsertTaskInput`. -/
structure UpsertTaskInput where
  id : Option String
  eventId : String
  title : String
  description : Option String
  dueDate : Option String
  status : Option String
  priority : Option String
  userId : Option String
deriving DecidableEq, Repr

/-- zod parsing of the `upsertEventTask` input: `status:
z.enum(TASK_STATUSES).default("todo")` fills in "todo" whenever the
caller supplied no status, before the handler ever runs. -/
def parseUpsertTaskInput (raw : UpsertTaskInput) : UpsertTaskInput :=
  { raw with status := some (raw.status.getD "todo") }

/-- The JS truthiness test `if (input.id)`: an absent or empty id takes
the create branch. -/
def isTruthyId (id : Option String) : Bool :=
  match id with
  | some s => s != ""
  | none => false

/-- The `updates` object of the `upsertEventTask` update branch
(`index.ts` lines 250-258) assigned onto a row, as both the spread
`{ ...existing, ...updates }` and `set(updates)` do: `title`,
`description`, `dueDate`, `status`, `priority`, `userId`, `updatedAt` are
all assigned (some possibly to `undefined`); `id`, `eventId`, `createdAt`
are kept. `statusVal` is `input.status ?? existing.status`, computed once
from the loaded row. -/
def applyTaskUpdates (t : EventTask) (input : UpsertTaskInput)
    (statusVal : Option String) (now : Nat) : EventTask :=
  { t with
    title := input.title
    description := input.description
    dueDate := parseOptionalDate input.dueDate
    status := statusVal
    priority := input.priority
    userId := input.userId
    updatedAt := now }

/-- The freshly inserted task of the `upsertEventTask` create branch
(`index.ts` lines 271-284). -/
def newTask (input : UpsertTaskInput) (eventId : String) (now : Nat)
    (freshId : String) : EventTask :=
  { id := freshId
    eventId := eventId
    userId := input.userId
    title := input.title
    description := input.description
    dueDate := parseOptionalDate input.dueDate
    status := some (input.status.getD "todo")
    priority := input.priority
    createdAt := now
    updatedAt := now }

/-- `upsertEventTask` handler body (`index.ts` lines 223-290). -/
def upsertEventTaskHandler (user : Option String) (input : UpsertTaskInput)
    (now : Nat) (freshId : String) (s : Store) :
    Except Err (Store × EventTask) := do
  let uid ← requireUser user
  let event ← getEventForUser uid input.eventId s
  if isTruthyId input.id then
    let tid := input.id.getD ""
    match s.tasks.find? (fun t => t.id == tid) with
    | none => .error .notFound
    | some existing =>
      if existing.eventId ≠ event.id then .error .forbidden
      else
        let statusVal := match input.status with
          | some st => some st
          | none => existing.status
        let upd := fun t => if t.id == tid then applyTaskUpdates t input statusVal now else t
        .ok ({ s with tasks := s.tasks.map upd },
             applyTaskUpdates existing input statusVal now)
  else
    let task := newTask input event.id now freshId
    .ok ({ s with tasks := s.tasks ++ [task] }, task)

/-- The full `upsertEventTask` action: zod parsing (which applies the
`status` default) followed by the handler. -/
def upsertEventTask (user : Option String) (raw : UpsertTaskInput)
    (now : Nat) (freshId : String) (s : Store) :
    Except Err (Store × EventTask) :=
  upsertEventTaskHandler user (parseUpsertTaskInput raw) now freshId s

/-- `deleteEventTask` (`index.ts` lines 293-316): load the task,
NOT_FOUND if absent, authorize against the task's own stored `eventId`,
then delete it. -/
def deleteEventTask (user : Option String) (taskId : String) (s : Store) :
    Except Err Store := do
  let uid ← requireUser user
  match s.tasks.find? (fun t => t.id == taskId) with
  | none => .error .notFound
  | some existing => do
    let _ ← getEventForUser uid existing.eventId s
    .ok { s with tasks := s.tasks.filter (fun t => t.id != taskId) }

/-- Input of `upsertEventGuest` after zod parsing; no field of the guest
schema carries a zod default, so the action and the handler coincide. -/
structure UpsertGuestInput where
  id : Option String
  eventId : String
  name : String
  email : Option String
  phone : Option String
  rsvpStatus : Option String
  notes : Option String
  invitedAt : Option String
  respondedAt : Option String
deriving DecidableEq, Repr

/-- The `updates` object of the `upsertEventGuest` update branch
(`index.ts` lines 357-365) assigned onto a row: every guest field except
`id`, `eventId`, `createdAt` is assigned from the input (possibly to
`undefined`); there is no `updatedAt` column. -/
def applyGuestUpdates (g : EventGuest) (input : UpsertGuestInput) : EventGuest :=
  { g with
    name := input.name
    email := input.email
    phone := input.phone
    rsvpStatus := input.rsvpStatus
    notes := input.notes
    invitedAt := parseOptionalDate input.invitedAt
    respondedAt := parseOptionalDate input.respondedAt }

/-- The freshly inserted guest of the `upsertEventGuest` create branch
(`index.ts` lines 378-391). -/
def newGuest (input : UpsertGuestInput) (eventId : String) (now : Nat)
    (freshId : String) : EventGuest :=
  { id := freshId
    eventId := eventId
    name := input.name
    email := input.email
    phone := input.phone
    rsvpStatus := input.rsvpStatus
    notes := input.notes
    invitedAt := parseOptionalDate input.invitedAt
    respondedAt := parseOptionalDate input.respondedAt
    createdAt := now }

/-- `upsertEventGuest` (`index.ts` lines 318-398). -/
def upsertEventGuest (user : Option String) (input : UpsertGuestInput)
    (now : Nat) (freshId : String) (s : Store) :
    Except Err (Store × EventGuest) := do
  let uid ← requireUser user
  let event ← getEventForUser uid input.eventId s
  if isTruthyId input.id then
    let gid := input.id.getD ""
    match s.guests.find? (fun g => g.id == gid) with
    | none => .error .notFound
    | some existing =>
      if existing.eventId ≠ event.id then .error .forbidden
      else
        let upd := fun g => if g.id == gid then applyGuestUpdates g input else g
        .ok ({ s with guests := s.guests.map upd }, applyGuestUpdates existing input)
  else
    let guest := newGuest input event.id now freshId
    .ok ({ s with guests := s.guests ++ [guest] }, guest)

/-- `deleteEventGuest` (`index.ts` lines 400-423): load the guest,
NOT_FOUND if absent, authorize against the guest's own stored `eventId`,
then delete it. -/
def deleteEventGuest (user : Option String) (guestId : String) (s : Store) :
    Except Err Store := do
  let uid ← requireUser user
  match s.guests.find? (fun g => g.id == guestId) with
  | none => .error .notFound
  | some existing => do
    let _ ← getEventForUser uid existing.eventId s
    .ok { s with guests := s.guests.filter (fun g => g.id != guestId) }

/-! Concrete fixtures used by witnesses and counterexamples. -/

/-- A concrete event owned by user "u1". -/
def evA : Event :=
  { id := "e1"
    ownerUserId := "u1"
    title := "Launch"
    description := none
    startDateTime := none
    endDateTime := none
    timeZone := none
    locationName := none
    locationAddress := none
    locationMapLink := none
    status := some "planning"
    createdAt := 0
    updatedAt := 0 }

/-- A second concrete event owned by user "u9". -/
def evB : Event :=
  { evA with id := "e2", ownerUserId := "u9" }

/-- A concrete task of event "e1" whose status is "done". -/
def taskA : EventTask :=
  { id := "t1"
    eventId := "e1"
    userId := none
    title := "Setup"
    description := some "d"
    dueDate := none
    status := some "done"
    priority := some "high"
    createdAt := 0
    updatedAt := 0 }

/-- A concrete task belonging to the other event "e2". -/
def taskB : EventTask :=
  { taskA with id := "t2", eventId := "e2" }

/-- A concrete guest of event "e1". -/
def guestA : EventGuest :=
  { id := "g1"
    eventId := "e1"
    name := "Ana"
    email := none
    phone := none
    rsvpStatus := some "invited"
    notes := none
    invitedAt := none
    respondedAt := none
    createdAt := 0 }

/-- A concrete guest belonging to the other event "e2". -/
def guestB : EventGuest :=
  { guestA with id := "g2", eventId := "e2" }

/-- A concrete store holding both events with one task and one guest each;
"e2" is owned by a different user than "e1". -/
def storeA : Store :=
  { events := [evA, evB], tasks := [taskA, taskB], guests := [guestA, guestB] }

/-! Helper lemmas about the shared access guard. -/

lemma getEventForUser_forbidden {uid eid : String} {s : Store} {e : Event}
    (h1 : s.events.find? (fun x => x.id == eid) = some e)
    (h2 : e.ownerUserId ≠ uid) :
    getEventForUser uid eid s = .error .forbidden := by
  simp [getEventForUser, h1, h2]

lemma getEventForUser_ok {uid eid : String} {s : Store} {e : Event}
    (h1 : s.events.find? (fun x => x.id == eid) = some e)
    (h2 : e.ownerUserId = uid) :
    getEventForUser uid eid s = .ok e := by
  simp [getEventForUser, h1, h2]

/-- C1: every operation that references an Event (updateEvent, deleteEvent,
getEventWithDetails, upsertEventTask, deleteEventTask, upsertEventGuest,
deleteEventGuest) fails with Forbidden when the acting user differs from
the referenced Event's `ownerUserId`, and (the error carrying no store)
leaves the store unchanged: only the owner may read, mutate or delete the
Event or its Tasks/Guests. -/
theorem nonOwner_forbidden (uid : String) (e : Event) (s : Store)
    (h1 : s.events.find? (fun x => x.id == e.id) = some e)
    (h2 : e.ownerUserId ≠ uid) :
    (∀ inp now, inp.id = e.id → hasUpdateField inp = true →
      updateEvent (some uid) inp now s = .error .forbidden) ∧
    (deleteEvent (some uid) e.id s = .error .forbidden) ∧
    (getEventWithDetails (some uid) e.id s = .error .forbidden) ∧
    (∀ inp now fid, inp.eventId = e.id →
      upsertEventTask (some uid) inp now fid s = .error .forbidden) ∧
    (∀ tid t, s.tasks.find? (fun x => x.id == tid) = some t → t.eventId = e.id →
      deleteEventTask (some uid) tid s = .error .forbidden) ∧
    (∀ inp now fid, inp.eventId = e.id →
      upsertEventGuest (some uid) inp now fid s = .error .forbidden) ∧
    (∀ gid g, s.guests.find? (fun x => x.id == gid) = some g → g.eventId = e.id →
      deleteEventGuest (some uid) gid s = .error .forbidden) := by
  have hguard := getEventForUser_forbidden h1 h2
  refine ⟨?_, ?_, ?_, ?_, ?_, ?_, ?_⟩
  · intro inp now hid hfield
    simp [updateEvent, hfield, updateEventHandler, requireUser, hid, hguard,
      Bind.bind, Except.bind]
  · simp [deleteEvent, requireUser, hguard, Bind.bind, Except.bind]
  · simp [getEventWithDetails, requireUser, hguard, Bind.bind, Except.bind]
  · intro inp now fid hev
    simp [upsertEventTask, upsertEventTaskHandler, parseUpsertTaskInput,
      requireUser, hev, hguard, Bind.bind, Except.bind]
  · intro tid t ht htev
    simp [deleteEventTask, requireUser, ht, htev, hguard, Bind.bind, Except.bind]
  · intro inp now fid hev
    simp [upsertEventGuest, requireUser, hev, hguard, Bind.bind, Except.bind]
  · intro gid g hg hgev
    simp [deleteEventGuest, requireUser, hg, hgev, hguard, Bind.bind, Except.bind]

/-- Witness for C1: in the concrete store, user "u2" is not the owner of
event "e1" and every operation on it is Forbidden. -/
theorem nonOwner_forbidden_witness :
    (storeA.events.find? (fun x => x.id == evA.id) = some evA) ∧
    (evA.ownerUserId ≠ "u2") ∧
    ((∀ inp now, inp.id = evA.id → hasUpdateField inp = true →
      updateEvent (some "u2") inp now storeA = .error .forbidden) ∧
    (deleteEvent (some "u2") evA.id storeA = .error .forbidden) ∧
    (getEventWithDetails (some "u2") evA.id storeA = .error .forbidden) ∧
    (∀ inp now fid, inp.eventId = evA.id →
      upsertEventTask (some "u2") inp now fid storeA = .error .forbidden) ∧
    (∀ tid t, storeA.tasks.find? (fun x => x.id == tid) = some t → t.eventId = evA.id →
      deleteEventTask (some "u2") tid storeA = .error .forbidden) ∧
    (∀ inp now fid, inp.eventId = evA.id →
      upsertEventGuest (some "u2") inp now fid storeA = .error .forbidden) ∧
    (∀ gid g, storeA.guests.find? (fun x => x.id == gid) = some g → g.eventId = evA.id →
      deleteEventGuest (some "u2") gid storeA = .error .forbidden)) :=
  ⟨by decide, by decide, nonOwner_forbidden "u2" evA storeA (by decide) (by decide)⟩

/-- C2: once `deleteEvent e.id` succeeds, the Event row is gone and no
Task or Guest row with `eventId = e.id` remains in the store. -/
theorem deleteEvent_cascades (uid eid : String) (s s' : Store)
    (h : deleteEvent (some uid) eid s = .ok s') :
    (∀ e ∈ s'.events, e.id ≠ eid) ∧
    (∀ t ∈ s'.tasks, t.eventId ≠ eid) ∧
    (∀ g ∈ s'.guests, g.eventId ≠ eid) := by
  simp only [deleteEvent, requireUser, Bind.bind, Except.bind] at h
  cases hg : getEventForUser uid eid s with
  | error err => rw [hg] at h; exact absurd h (by simp)
  | ok e =>
    rw [hg] at h
    injection h with h
    subst h
    refine ⟨?_, ?_, ?_⟩
    · intro x hx
      have := (List.mem_filter.mp hx).2
      simpa using this
    · intro x hx
      have := (List.mem_filter.mp hx).2
      simpa using this
    · intro x hx
      have := (List.mem_filter.mp hx).2
      simpa using this

/-- Witness for C2: deleting event "e1" from the concrete store leaves
only rows of the other event "e2". -/
theorem deleteEvent_cascades_witness :
    (deleteEvent (some "u1") "e1" storeA =
      .ok { events := [evB], tasks := [taskB], guests := [guestB] }) ∧
    ((∀ e ∈ (Store.mk [evB] [taskB] [guestB]).events, e.id ≠ "e1") ∧
     (∀ t ∈ (Store.mk [evB] [taskB] [guestB]).tasks, t.eventId ≠ "e1") ∧
     (∀ g ∈ (Store.mk [evB] [taskB] [guestB]).guests, g.eventId ≠ "e1")) :=
  ⟨by rfl,
   deleteEvent_cascades "u1" "e1" storeA (Store.mk [evB] [taskB] [guestB]) (by rfl)⟩

/-- C3: with no id, upsertEventTask and upsertEventGuest always create a
new row carrying the freshly generated identity (unique in the store as
long as the generated id is); with an id that matches an existing row of
a different event than the authorized one, they fail with Forbidden and
mutate nothing. -/
theorem upsertChild_fresh_and_reparent_forbidden (uid : String) (e : Event)
    (s : Store)
    (h1 : s.events.find? (fun x => x.id == e.id) = some e)
    (h2 : e.ownerUserId = uid) :
    (∀ (inp : UpsertTaskInput) now fid, inp.eventId = e.id → inp.id = none →
      ∃ task, upsertEventTask (some uid) inp now fid s =
          .ok ({ s with tasks := s.tasks ++ [task] }, task) ∧
        task.id = fid ∧
        ((∀ t ∈ s.tasks, t.id ≠ fid) →
          (s.tasks ++ [task]).countP (fun t => t.id == fid) = 1)) ∧
    (∀ (inp : UpsertTaskInput) now fid t, inp.eventId = e.id →
      inp.id = some t.id → t.id ≠ "" →
      s.tasks.find? (fun x => x.id == t.id) = some t → t.eventId ≠ e.id →
      upsertEventTask (some uid) inp now fid s = .error .forbidden) ∧
    (∀ (inp : UpsertGuestInput) now fid, inp.eventId = e.id → inp.id = none →
      ∃ guest, upsertEventGuest (some uid) inp now fid s =
          .ok ({ s with guests := s.guests ++ [guest] }, guest) ∧
        guest.id = fid ∧
        ((∀ g ∈ s.guests, g.id ≠ fid) →
          (s.guests ++ [guest]).countP (fun g => g.id == fid) = 1)) ∧
    (∀ (inp : UpsertGuestInput) now fid g, inp.eventId = e.id →
      inp.id = some g.id → g.id ≠ "" →
      s.guests.find? (fun x => x.id == g.id) = some g → g.eventId ≠ e.id →
      upsertEventGuest (some uid) inp now fid s = .error .forbidden) := by
  have hguard := getEventForUser_ok h1 h2
  refine ⟨?_, ?_, ?_, ?_⟩
  · intro inp now fid hev hid
    refine ⟨newTask (parseUpsertTaskInput inp) e.id now fid, ?_, rfl, ?_⟩
    · simp [upsertEventTask, upsertEventTaskHandler, parseUpsertTaskInput,
        requireUser, Bind.bind, Except.bind, hev, hguard, hid, isTruthyId]
    · intro hfresh
      have hzero : s.tasks.countP (fun t => t.id == fid) = 0 := by
        rw [List.countP_eq_zero]
        intro t ht
        simpa using hfresh t ht
      simp [List.countP_append, hzero, List.countP_cons, newTask]
  · intro inp now fid t hev hid hne ht htev
    simp [upsertEventTask, upsertEventTaskHandler, parseUpsertTaskInput,
      requireUser, Bind.bind, Except.bind, hev, hguard, hid, isTruthyId,
      hne, ht, htev]
  · intro inp now fid hev hid
    refine ⟨newGuest inp e.id now fid, ?_, rfl, ?_⟩
    · simp [upsertEventGuest, requireUser, Bind.bind, Except.bind, hev,
        hguard, hid, isTruthyId]
    · intro hfresh
      have hzero : s.guests.countP (fun g => g.id == fid) = 0 := by
        rw [List.countP_eq_zero]
        intro g hg
        simpa using hfresh g hg
      simp [List.countP_append, hzero, List.countP_cons, newGuest]
  · intro inp now fid g hev hid hne hg hgev
    simp [upsertEventGuest, requireUser, Bind.bind, Except.bind, hev,
      hguard, hid, isTruthyId, hne, hg, hgev]

/-- Witness for C3: user "u1" owns "e1" in the concrete store, so the
create/Forbidden dichotomy of the upserts holds there. -/
theorem upsertChild_fresh_and_reparent_forbidden_witness :
    (storeA.events.find? (fun x => x.id == evA.id) = some evA) ∧
    (evA.ownerUserId = "u1") ∧
    ((∀ (inp : UpsertTaskInput) now fid, inp.eventId = evA.id → inp.id = none →
      ∃ task, upsertEventTask (some "u1") inp now fid storeA =
          .ok ({ storeA with tasks := storeA.tasks ++ [task] }, task) ∧
        task.id = fid ∧
        ((∀ t ∈ storeA.tasks, t.id ≠ fid) →
          (storeA.tasks ++ [task]).countP (fun t => t.id == fid) = 1)) ∧
    (∀ (inp : UpsertTaskInput) now fid t, inp.eventId = evA.id →
      inp.id = some t.id → t.id ≠ "" →
      storeA.tasks.find? (fun x => x.id == t.id) = some t → t.eventId ≠ evA.id →
      upsertEventTask (some "u1") inp now fid storeA = .error .forbidden) ∧
    (∀ (inp : UpsertGuestInput) now fid, inp.eventId = evA.id → inp.id = none →
      ∃ guest, upsertEventGuest (some "u1") inp now fid storeA =
          .ok ({ storeA with guests := storeA.guests ++ [guest] }, guest) ∧
        guest.id = fid ∧
        ((∀ g ∈ storeA.guests, g.id ≠ fid) →
          (storeA.guests ++ [guest]).countP (fun g => g.id == fid) = 1)) ∧
    (∀ (inp : UpsertGuestInput) now fid g, inp.eventId = evA.id →
      inp.id = some g.id → g.id ≠ "" →
      storeA.guests.find? (fun x => x.id == g.id) = some g → g.eventId ≠ evA.id →
      upsertEventGuest (some "u1") inp now fid storeA = .error .forbidden)) :=
  ⟨by rfl, by rfl,
   upsertChild_fresh_and_reparent_forbidden "u1" evA storeA (by rfl) (by rfl)⟩

/-- Concrete raw `upsertEventTask` input addressing the stored task "t1"
of its own event "e1" and supplying no `status`. -/
def taskInputNoStatus : UpsertTaskInput :=
  { id := some "t1"
    eventId := "e1"
    title := "Setup"
    description := some "d"
    dueDate := none
    status := none
    priority := some "high"
    userId := none }

/-- C4: updating task "t1" (stored status "done") without supplying a
status does NOT keep the stored status: the zod `.default("todo")` fires
before the handler, so the handler's `input.status ?? existing.status`
fallback is unreachable and the task's status becomes "todo". -/
theorem upsertTask_missing_status_becomes_todo :
    taskInputNoStatus.id = some taskA.id ∧
    taskInputNoStatus.status = none ∧
    taskA.status = some "done" ∧
    ∃ s' task,
      upsertEventTask (some "u1") taskInputNoStatus 5 "f1" storeA = .ok (s', task) ∧
      task.id = taskA.id ∧
      task.status = some "todo" ∧
      task.status ≠ taskA.status :=
  ⟨rfl, rfl, rfl,
   ⟨{ storeA with tasks := [applyTaskUpdates taskA (parseUpsertTaskInput taskInputNoStatus) (some "todo") 5, taskB] },
    applyTaskUpdates taskA (parseUpsertTaskInput taskInputNoStatus) (some "todo") 5,
    by rfl, by rfl, by rfl, by decide⟩⟩

/-- The handler in isolation would have kept the stored status on a
status-less update (the intent behind `input.status ?? existing.status`);
it is the zod default in front of it that defeats this. -/
theorem upsertTaskHandler_alone_keeps_status :
    ∃ s' task,
      upsertEventTaskHandler (some "u1") taskInputNoStatus 5 "f1" storeA =
        .ok (s', task) ∧
      task.status = taskA.status :=
  ⟨{ storeA with tasks := [applyTaskUpdates taskA taskInputNoStatus taskA.status 5, taskB] },
   applyTaskUpdates taskA taskInputNoStatus taskA.status 5, by rfl, by rfl⟩

/-- C5: an updateEvent input that carries an id but none of the nine
recognized updatable fields is rejected by the schema refine with a
ValidationError, for every actor (even an unauthenticated one) and every
store — before any session or store access, hence with no mutation. -/
theorem updateEvent_empty_input_validation (input : UpdateEventInput)
    (h1 : input.title = none) (h2 : input.description = none)
    (h3 : input.startDateTime = none) (h4 : input.endDateTime = none)
    (h5 : input.timeZone = none) (h6 : input.locationName = none)
    (h7 : input.locationAddress = none) (h8 : input.locationMapLink = none)
    (h9 : input.status = none) :
    ∀ user now s, updateEvent user input now s = .error .validation := by
  intro user now s
  have hf : hasUpdateField input = false := by
    simp [hasUpdateField, h1, h2, h3, h4, h5, h6, h7, h8, h9]
  simp [updateEvent, hf]

/-- Concrete updateEvent input carrying only an id. -/
def emptyUpdateInput : UpdateEventInput :=
  { id := "e1"
    title := none
    description := none
    startDateTime := none
    endDateTime := none
    timeZone := none
    locationName := none
    locationAddress := none
    locationMapLink := none
    status := none }

/-- Witness for C5: the id-only input is rejected on the concrete store. -/
theorem updateEvent_empty_input_validation_witness :
    (emptyUpdateInput.title = none ∧ emptyUpdateInput.description = none ∧
     emptyUpdateInput.startDateTime = none ∧ emptyUpdateInput.endDateTime = none ∧
     emptyUpdateInput.timeZone = none ∧ emptyUpdateInput.locationName = none ∧
     emptyUpdateInput.locationAddress = none ∧ emptyUpdateInput.locationMapLink = none ∧
     emptyUpdateInput.status = none) ∧
    (∀ user now s, updateEvent user emptyUpdateInput now s = .error .validation) :=
  ⟨⟨rfl, rfl, rfl, rfl, rfl, rfl, rfl, rfl, rfl⟩,
   updateEvent_empty_input_validation emptyUpdateInput rfl rfl rfl rfl rfl rfl
     rfl rfl rfl⟩

/-- C6: deleteEventTask of an absent id fails with NotFound; when the task
exists, authorization runs against the task's own stored `eventId` (the
caller supplies none): a non-owner of that event gets Forbidden, the owner
gets a successful delete; and after a successful delete a second delete of
the same id fails with NotFound for every actor, so deleting the same task
twice never succeeds twice. The same contract holds for deleteEventGuest. -/
theorem deleteChild_contract (uid : String) (s : Store) :
    (∀ tid, s.tasks.find? (fun x => x.id == tid) = none →
      deleteEventTask (some uid) tid s = .error .notFound) ∧
    (∀ tid t e, s.tasks.find? (fun x => x.id == tid) = some t →
      s.events.find? (fun x => x.id == t.eventId) = some e →
      (e.ownerUserId ≠ uid → deleteEventTask (some uid) tid s = .error .forbidden) ∧
      (e.ownerUserId = uid → deleteEventTask (some uid) tid s =
        .ok { s with tasks := s.tasks.filter (fun x => x.id != tid) })) ∧
    (∀ tid s', deleteEventTask (some uid) tid s = .ok s' →
      ∀ v, deleteEventTask (some v) tid s' = .error .notFound) ∧
    (∀ gid, s.guests.find? (fun x => x.id == gid) = none →
      deleteEventGuest (some uid) gid s = .error .notFound) ∧
    (∀ gid g e, s.guests.find? (fun x => x.id == gid) = some g →
      s.events.find? (fun x => x.id == g.eventId) = some e →
      (e.ownerUserId ≠ uid → deleteEventGuest (some uid) gid s = .error .forbidden) ∧
      (e.ownerUserId = uid → deleteEventGuest (some uid) gid s =
        .ok { s with guests := s.guests.filter (fun x => x.id != gid) })) ∧
    (∀ gid s', deleteEventGuest (some uid) gid s = .ok s' →
      ∀ v, deleteEventGuest (some v) gid s' = .error .notFound) := by
  refine ⟨?_, ?_, ?_, ?_, ?_, ?_⟩
  · intro tid hnone
    simp [deleteEventTask, requireUser, Bind.bind, Except.bind, hnone]
  · intro tid t e ht he
    constructor
    · intro hown
      simp [deleteEventTask, requireUser, Bind.bind, Except.bind, ht,
        getEventForUser_forbidden he hown]
    · intro hown
      simp [deleteEventTask, requireUser, Bind.bind, Except.bind, ht,
        getEventForUser_ok he hown]
  · intro tid s' h v
    simp only [deleteEventTask, requireUser, Bind.bind, Except.bind] at h ⊢
    cases ht : s.tasks.find? (fun x => x.id == tid) with
    | none => rw [ht] at h; exact absurd h (by simp)
    | some t =>
      simp only [ht] at h
      cases hg : getEventForUser uid t.eventId s with
      | error err => rw [hg] at h; exact absurd h (by simp)
      | ok e =>
        rw [hg] at h
        injection h with h
        subst h
        have hfind : (s.tasks.filter (fun x => x.id != tid)).find?
            (fun x => x.id == tid) = none := by
          rw [List.find?_eq_none]
          intro x hx
          have := (List.mem_filter.mp hx).2
          simpa using this
        simp [hfind]
  · intro gid hnone
    simp [deleteEventGuest, requireUser, Bind.bind, Except.bind, hnone]
  · intro gid g e hg he
    constructor
    · intro hown
      simp [deleteEventGuest, requireUser, Bind.bind, Except.bind, hg,
        getEventForUser_forbidden he hown]
    · intro hown
      simp [deleteEventGuest, requireUser, Bind.bind, Except.bind, hg,
        getEventForUser_ok he hown]
  · intro gid s' h v
    simp only [deleteEventGuest, requireUser, Bind.bind, Except.bind] at h ⊢
    cases hgf : s.guests.find? (fun x => x.id == gid) with
    | none => rw [hgf] at h; exact absurd h (by simp)
    | some g =>
      simp only [hgf] at h
      cases hge : getEventForUser uid g.eventId s with
      | error err => rw [hge] at h; exact absurd h (by simp)
      | ok e =>
        rw [hge] at h
        injection h with h
        subst h
        have hfind : (s.guests.filter (fun x => x.id != gid)).find?
            (fun x => x.id == gid) = none := by
          rw [List.find?_eq_none]
          intro x hx
          have := (List.mem_filter.mp hx).2
          simpa using this
        simp [hfind]

/-- Witness for C6: on the concrete store, deleting an absent id is
NotFound, deleting a child of another user's event is Forbidden, the
owner's delete succeeds, and repeating it is NotFound. -/
theorem deleteChild_contract_witness :
    deleteEventTask (some "u1") "tX" storeA = .error .notFound ∧
    deleteEventTask (some "u1") "t2" storeA = .error .forbidden ∧
    deleteEventTask (some "u1") "t1" storeA =
      .ok { storeA with tasks := storeA.tasks.filter (fun x => x.id != "t1") } ∧
    deleteEventTask (some "u1") "t1"
      { storeA with tasks := storeA.tasks.filter (fun x => x.id != "t1") } =
      .error .notFound ∧
    deleteEventGuest (some "u1") "gX" storeA = .error .notFound ∧
    deleteEventGuest (some "u1") "g2" storeA = .error .forbidden ∧
    deleteEventGuest (some "u1") "g1" storeA =
      .ok { storeA with guests := storeA.guests.filter (fun x => x.id != "g1") } ∧
    deleteEventGuest (some "u1") "g1"
      { storeA with guests := storeA.guests.filter (fun x => x.id != "g1") } =
      .error .notFound :=
  have hc := deleteChild_contract "u1" storeA
  ⟨hc.1 "tX" (by rfl),
   (hc.2.1 "t2" taskB evB (by rfl) (by rfl)).1 (by decide),
   (hc.2.1 "t1" taskA evA (by rfl) (by rfl)).2 (by rfl),
   hc.2.2.1 "t1" { storeA with tasks := storeA.tasks.filter (fun x => x.id != "t1") }
     ((hc.2.1 "t1" taskA evA (by rfl) (by rfl)).2 (by rfl)) "u1",
   hc.2.2.2.1 "gX" (by rfl),
   (hc.2.2.2.2.1 "g2" guestB evB (by rfl) (by rfl)).1 (by decide),
   (hc.2.2.2.2.1 "g1" guestA evA (by rfl) (by rfl)).2 (by rfl),
   hc.2.2.2.2.2 "g1" { storeA with guests := storeA.guests.filter (fun x => x.id != "g1") }
     ((hc.2.2.2.2.1 "g1" guestA evA (by rfl) (by rfl)).2 (by rfl)) "u1"⟩

lemma parseOptionalDate_of_valid {v : Option String} (h : v ≠ some "") :
    parseOptionalDate v = v := by
  cases v with
  | none => rfl
  | some s =>
    have hs : s ≠ "" := fun hh => h (by rw [hh])
    simp [parseOptionalDate, hs]

/-- C7: for every authenticated actor and schema-valid input, createEvent
inserts and returns an Event owned by the actor, with the supplied status
(or "planning" when none was supplied), with `createdAt = updatedAt` both
equal to the single timestamp of the call, and with every other field
equal to the input. -/
theorem createEvent_roundtrip (uid : String) (input : CreateEventInput)
    (now : Nat) (fid : String) (s : Store)
    (hv : validCreateEventInput input) :
    ∃ ev, createEvent (some uid) input now fid s =
        .ok ({ s with events := s.events ++ [ev] }, ev) ∧
      ev.ownerUserId = uid ∧
      ev.id = fid ∧
      ev.createdAt = now ∧
      ev.updatedAt = now ∧
      (∀ st, input.status = some st → ev.status = some st) ∧
      (input.status = none → ev.status = some "planning") ∧
      ev.title = input.title ∧
      ev.description = input.description ∧
      ev.startDateTime = input.startDateTime ∧
      ev.endDateTime = input.endDateTime ∧
      ev.timeZone = input.timeZone ∧
      ev.locationName = input.locationName ∧
      ev.locationAddress = input.locationAddress ∧
      ev.locationMapLink = input.locationMapLink := by
  obtain ⟨-, hsd, hed⟩ := hv
  refine ⟨newEvent input uid now fid, ?_, rfl, rfl, rfl, rfl, ?_, ?_, rfl, rfl,
    ?_, ?_, rfl, rfl, rfl, rfl⟩
  · simp [createEvent, requireUser, Bind.bind, Except.bind]
  · intro st hst
    simp [newEvent, hst]
  · intro hst
    simp [newEvent, hst]
  · exact parseOptionalDate_of_valid hsd
  · exact parseOptionalDate_of_valid hed

/-- Concrete createEvent input supplying every field. -/
def createInputA : CreateEventInput :=
  { title := "Launch"
    description := some "big"
    startDateTime := some "2026-01-01T10:00:00Z"
    endDateTime := some "2026-01-01T12:00:00Z"
    timeZone := some "UTC"
    locationName := some "HQ"
    locationAddress := some "1 Main St"
    locationMapLink := some "https://maps.example/hq"
    status := none }

/-- Witness for C7: creating with the concrete input as user "u3". -/
theorem createEvent_roundtrip_witness :
    validCreateEventInput createInputA ∧
    ∃ ev, createEvent (some "u3") createInputA 11 "e9" storeA =
        .ok ({ storeA with events := storeA.events ++ [ev] }, ev) ∧
      ev.ownerUserId = "u3" ∧
      ev.id = "e9" ∧
      ev.createdAt = 11 ∧
      ev.updatedAt = 11 ∧
      (∀ st, createInputA.status = some st → ev.status = some st) ∧
      (createInputA.status = none → ev.status = some "planning") ∧
      ev.title = createInputA.title ∧
      ev.description = createInputA.description ∧
      ev.startDateTime = createInputA.startDateTime ∧
      ev.endDateTime = createInputA.endDateTime ∧
      ev.timeZone = createInputA.timeZone ∧
      ev.locationName = createInputA.locationName ∧
      ev.locationAddress = createInputA.locationAddress ∧
      ev.locationMapLink = createInputA.locationMapLink :=
  ⟨by refine ⟨?_, ?_, ?_⟩ <;> decide,
   createEvent_roundtrip "u3" createInputA 11 "e9" storeA
     ⟨by decide, by decide, by decide⟩⟩

/-- C8: a successful updateEvent changes exactly the supplied fields:
every absent field keeps its stored value, `updatedAt` is stamped with the
call's timestamp, `id`, `ownerUserId` and `createdAt` never change, the
returned record is the stored record merged with the updates, and the new
store is the old one with (only) the addressed event replaced by that
merged record. -/
theorem updateEvent_frame (uid : String) (input : UpdateEventInput)
    (now : Nat) (s s' : Store) (ev e : Event)
    (h : updateEvent (some uid) input now s = .ok (s', ev))
    (h1 : s.events.find? (fun x => x.id == input.id) = some e)
    (huniq : ∀ x ∈ s.events, x.id = input.id → x = e) :
    ev.id = e.id ∧ ev.ownerUserId = e.ownerUserId ∧ ev.createdAt = e.createdAt ∧
    ev.updatedAt = now ∧
    (input.title = none → ev.title = e.title) ∧
    (∀ v, input.title = some v → ev.title = v) ∧
    (input.description = none → ev.description = e.description) ∧
    (∀ v, input.description = some v → ev.description = some v) ∧
    (input.startDateTime = none → ev.startDateTime = e.startDateTime) ∧
    (∀ v, input.startDateTime = some v → v ≠ "" → ev.startDateTime = some v) ∧
    (input.endDateTime = none → ev.endDateTime = e.endDateTime) ∧
    (∀ v, input.endDateTime = some v → v ≠ "" → ev.endDateTime = some v) ∧
    (input.timeZone = none → ev.timeZone = e.timeZone) ∧
    (∀ v, input.timeZone = some v → ev.timeZone = some v) ∧
    (input.locationName = none → ev.locationName = e.locationName) ∧
    (∀ v, input.locationName = some v → ev.locationName = some v) ∧
    (input.locationAddress = none → ev.locationAddress = e.locationAddress) ∧
    (∀ v, input.locationAddress = some v → ev.locationAddress = some v) ∧
    (input.locationMapLink = none → ev.locationMapLink = e.locationMapLink) ∧
    (∀ v, input.locationMapLink = some v → ev.locationMapLink = some v) ∧
    (input.status = none → ev.status = e.status) ∧
    (∀ v, input.status = some v → ev.status = some v) ∧
    s'.tasks = s.tasks ∧ s'.guests = s.guests ∧
    s'.events = s.events.map (fun x => if x.id = input.id then ev else x) := by
  cases hf : hasUpdateField input with
  | false => simp [updateEvent, hf] at h
  | true =>
    by_cases hown : e.ownerUserId = uid
    · have hg := getEventForUser_ok h1 hown
      simp only [updateEvent, hf, if_true, updateEventHandler, requireUser,
        Bind.bind, Except.bind, hg] at h
      injection h with h
      injection h with hs hev
      subst hs
      subst hev
      refine ⟨rfl, rfl, rfl, rfl, ?_, ?_, ?_, ?_, ?_, ?_, ?_, ?_, ?_, ?_, ?_,
        ?_, ?_, ?_, ?_, ?_, ?_, ?_, rfl, rfl, ?_⟩
      · intro hn; simp [applyEventUpdates, hn]
      · intro v hv; simp [applyEventUpdates, hv]
      · intro hn; simp [applyEventUpdates, hn]
      · intro v hv; simp [applyEventUpdates, hv]
      · intro hn; simp [applyEventUpdates, hn]
      · intro v hv hne; simp [applyEventUpdates, hv, parseOptionalDate, hne]
      · intro hn; simp [applyEventUpdates, hn]
      · intro v hv hne; simp [applyEventUpdates, hv, parseOptionalDate, hne]
      · intro hn; simp [applyEventUpdates, hn]
      · intro v hv; simp [applyEventUpdates, hv]
      · intro hn; simp [applyEventUpdates, hn]
      · intro v hv; simp [applyEventUpdates, hv]
      · intro hn; simp [applyEventUpdates, hn]
      · intro v hv; simp [applyEventUpdates, hv]
      · intro hn; simp [applyEventUpdates, hn]
      · intro v hv; simp [applyEventUpdates, hv]
      · intro hn; simp [applyEventUpdates, hn]
      · intro v hv; simp [applyEventUpdates, hv]
      · apply List.map_congr_left
        intro x hx
        simp only [beq_iff_eq]
        by_cases hxid : x.id = input.id
        · rw [if_pos hxid, if_pos hxid, huniq x hx hxid]
        · rw [if_neg hxid, if_neg hxid]
    · have hg := getEventForUser_forbidden h1 hown
      simp [updateEvent, hf, updateEventHandler, requireUser,
        Bind.bind, Except.bind, hg] at h

/-- Concrete updateEvent input supplying only `title` and `status`. -/
def updInputA : UpdateEventInput :=
  { id := "e1"
    title := some "Launch v2"
    description := none
    startDateTime := none
    endDateTime := none
    timeZone := none
    locationName := none
    locationAddress := none
    locationMapLink := none
    status := some "confirmed" }

/-- The merged record that updating "e1" with `updInputA` at time 7 yields. -/
def evA2 : Event := applyEventUpdates evA updInputA 7

/-- The concrete store after that update. -/
def storeA2 : Store := { storeA with events := [evA2, evB] }

/-- Witness for C8: updating title and status of "e1" at time 7. -/
theorem updateEvent_frame_witness :
    (updateEvent (some "u1") updInputA 7 storeA = .ok (storeA2, evA2)) ∧
    (storeA.events.find? (fun x => x.id == updInputA.id) = some evA) ∧
    (∀ x ∈ storeA.events, x.id = updInputA.id → x = evA) ∧
    (evA2.id = evA.id ∧ evA2.ownerUserId = evA.ownerUserId ∧
     evA2.createdAt = evA.createdAt ∧ evA2.updatedAt = 7 ∧
     (updInputA.title = none → evA2.title = evA.title) ∧
     (∀ v, updInputA.title = some v → evA2.title = v) ∧
     (updInputA.description = none → evA2.description = evA.description) ∧
     (∀ v, updInputA.description = some v → evA2.description = some v) ∧
     (updInputA.startDateTime = none → evA2.startDateTime = evA.startDateTime) ∧
     (∀ v, updInputA.startDateTime = some v → v ≠ "" → evA2.startDateTime = some v) ∧
     (updInputA.endDateTime = none → evA2.endDateTime = evA.endDateTime) ∧
     (∀ v, updInputA.endDateTime = some v → v ≠ "" → evA2.endDateTime = some v) ∧
     (updInputA.timeZone = none → evA2.timeZone = evA.timeZone) ∧
     (∀ v, updInputA.timeZone = some v → evA2.timeZone = some v) ∧
     (updInputA.locationName = none → evA2.locationName = evA.locationName) ∧
     (∀ v, updInputA.locationName = some v → evA2.locationName = some v) ∧
     (updInputA.locationAddress = none → evA2.locationAddress = evA.locationAddress) ∧
     (∀ v, updInputA.locationAddress = some v → evA2.locationAddress = some v) ∧
     (updInputA.locationMapLink = none → evA2.locationMapLink = evA.locationMapLink) ∧
     (∀ v, updInputA.locationMapLink = some v → evA2.locationMapLink = some v) ∧
     (updInputA.status = none → evA2.status = evA.status) ∧
     (∀ v, updInputA.status = some v → evA2.status = some v) ∧
     storeA2.tasks = storeA.tasks ∧ storeA2.guests = storeA.guests ∧
     storeA2.events = storeA.events.map
       (fun x => if x.id = updInputA.id then evA2 else x)) :=
  ⟨by rfl, by rfl, by decide,
   updateEvent_frame "u1" updInputA 7 storeA storeA2 evA2 evA (by rfl) (by rfl)
     (by decide)⟩

/-- A store holding only event "e1", before any guest exists. -/
def store0 : Store := { events := [evA], tasks := [], guests := [] }

/-- First call of the C9 scenario: create guest "Ana", rsvp "invited". -/
def guestCreateInput : UpsertGuestInput :=
  { id := none
    eventId := "e1"
    name := "Ana"
    email := none
    phone := none
    rsvpStatus := some "invited"
    notes := none
    invitedAt := none
    respondedAt := none }

/-- The guest created by the first call (fresh id "g1", time 1). -/
def g1Fix : EventGuest := newGuest guestCreateInput "e1" 1 "g1"

/-- The store after the first call. -/
def store1Fix : Store := { events := [evA], tasks := [], guests := [g1Fix] }

/-- Second call of the C9 scenario carrying the guest's id and
rsvpStatus "going". The schema forces it to also carry `eventId` and a
`name` (both required, `name` with min(1)); this one supplies "Bob". -/
def guestUpdInputBob : UpsertGuestInput :=
  { guestCreateInput with id := some "g1", name := "Bob", rsvpStatus := some "going" }

/-- The guest the second call returns. -/
def g2Fix : EventGuest := applyGuestUpdates g1Fix guestUpdInputBob

/-- The store after the second call. -/
def store2Fix : Store := { store1Fix with guests := [g2Fix] }

/-- Counterexample to C9 as stated: after creating guest "Ana"/"invited",
a call carrying that guest's id and rsvpStatus "going" (and, as the
schema requires, an eventId and a name — here "Bob") succeeds, but the
resulting guest's name is NOT unchanged: `name` is a required field and
is always overwritten by the update. -/
theorem guest_rsvp_update_name_overwritten :
    upsertEventGuest (some "u1") guestCreateInput 1 "g1" store0 =
      .ok (store1Fix, g1Fix) ∧
    g1Fix.name = "Ana" ∧
    g1Fix.rsvpStatus = some "invited" ∧
    guestUpdInputBob.id = some g1Fix.id ∧
    guestUpdInputBob.rsvpStatus = some "going" ∧
    upsertEventGuest (some "u1") guestUpdInputBob 2 "g9" store1Fix =
      .ok (store2Fix, g2Fix) ∧
    g2Fix.rsvpStatus = some "going" ∧
    g2Fix.name ≠ g1Fix.name :=
  ⟨rfl, rfl, rfl, rfl, rfl, rfl, rfl, by decide⟩

/-- C9 amended: after creating a guest, a second upsert carrying the
guest's id, the same eventId, the SAME name (the schema makes `name`
required on every call, so "unchanged" needs it re-supplied) and
rsvpStatus "going" succeeds, and yields a guest with rsvpStatus "going"
and the unchanged name. -/
theorem guest_rsvp_update_same_name (uid : String) (e : Event) (s : Store)
    (inp1 inp2 : UpsertGuestInput) (now1 now2 : Nat) (fid1 fid2 : String)
    (h1 : s.events.find? (fun x => x.id == e.id) = some e)
    (h2 : e.ownerUserId = uid)
    (hi1 : inp1.id = none) (he1 : inp1.eventId = e.id)
    (hfid : fid1 ≠ "")
    (hfresh : ∀ g ∈ s.guests, g.id ≠ fid1)
    (hi2 : inp2.id = some fid1) (he2 : inp2.eventId = e.id)
    (hname : inp2.name = inp1.name) (hrsvp : inp2.rsvpStatus = some "going") :
    ∃ s1 g1 s2 g2,
      upsertEventGuest (some uid) inp1 now1 fid1 s = .ok (s1, g1) ∧
      g1.id = fid1 ∧ g1.name = inp1.name ∧ g1.rsvpStatus = inp1.rsvpStatus ∧
      upsertEventGuest (some uid) inp2 now2 fid2 s1 = .ok (s2, g2) ∧
      g2.rsvpStatus = some "going" ∧
      g2.name = g1.name := by
  have hguard := getEventForUser_ok h1 h2
  refine ⟨{ s with guests := s.guests ++ [newGuest inp1 e.id now1 fid1] },
    newGuest inp1 e.id now1 fid1,
    { s with guests := ((s.guests ++ [newGuest inp1 e.id now1 fid1]).map
        (fun g => if g.id == fid1 then applyGuestUpdates g inp2 else g)) },
    applyGuestUpdates (newGuest inp1 e.id now1 fid1) inp2,
    ?_, rfl, rfl, rfl, ?_, ?_, ?_⟩
  · simp [upsertEventGuest, requireUser, Bind.bind, Except.bind, he1,
      hguard, hi1, isTruthyId]
  · have hnone : s.guests.find? (fun x => x.id == fid1) = none := by
      rw [List.find?_eq_none]
      intro x hx
      simpa using hfresh x hx
    simp [upsertEventGuest, requireUser, Bind.bind, Except.bind, he2,
      getEventForUser, h1, h2, hi2, isTruthyId, hfid, hnone, newGuest]
  · simp [applyGuestUpdates, hrsvp]
  · simp [applyGuestUpdates, newGuest, hname]

/-- Witness for C9 amended: the same scenario with the name "Ana"
re-supplied on the second call. -/
theorem guest_rsvp_update_same_name_witness :
    (store0.events.find? (fun x => x.id == evA.id) = some evA) ∧
    (evA.ownerUserId = "u1") ∧
    ∃ s1 g1 s2 g2,
      upsertEventGuest (some "u1") guestCreateInput 1 "g1" store0 = .ok (s1, g1) ∧
      g1.id = "g1" ∧ g1.name = guestCreateInput.name ∧
      g1.rsvpStatus = guestCreateInput.rsvpStatus ∧
      upsertEventGuest (some "u1")
        { guestCreateInput with id := some "g1", rsvpStatus := some "going" }
        2 "g9" s1 = .ok (s2, g2) ∧
      g2.rsvpStatus = some "going" ∧
      g2.name = g1.name :=
  ⟨by rfl, by rfl,
   guest_rsvp_update_same_name "u1" evA store0 guestCreateInput
     { guestCreateInput with id := some "g1", rsvpStatus := some "going" }
     1 2 "g1" "g9" (by rfl) (by rfl) (by rfl) (by rfl) (by decide)
     (by intro g hg; simp [store0] at hg) (by rfl) (by rfl) (by rfl) (by rfl)⟩

/-- C10: on the update branch of the upserts (existing id of the
authorized event), every updatable field of the row is replaced by the
input's value — optional fields omitted from the input become empty
rather than keeping the stored value — and only `id`, `eventId` and
`createdAt` survive from the existing row, plus `status` on tasks when
the handler-level fallback fires (the task part is stated on the handler,
where `input.status ?? existing.status` lives; the rest of the store is
untouched except that the addressed row is replaced). -/
theorem upsertChild_update_overwrites (uid : String) (s : Store) :
    (∀ (input : UpsertTaskInput) (now : Nat) (fid tid : String) (s' : Store)
       (task t0 : EventTask),
      input.id = some tid → tid ≠ "" →
      s.tasks.find? (fun x => x.id == tid) = some t0 →
      (∀ x ∈ s.tasks, x.id = tid → x = t0) →
      upsertEventTaskHandler (some uid) input now fid s = .ok (s', task) →
      task.id = t0.id ∧ task.eventId = t0.eventId ∧ task.createdAt = t0.createdAt ∧
      task.title = input.title ∧ task.description = input.description ∧
      task.dueDate = parseOptionalDate input.dueDate ∧
      task.priority = input.priority ∧ task.userId = input.userId ∧
      task.updatedAt = now ∧
      (∀ st, input.status = some st → task.status = some st) ∧
      (input.status = none → task.status = t0.status) ∧
      s'.events = s.events ∧ s'.guests = s.guests ∧
      s'.tasks = s.tasks.map (fun x => if x.id = tid then task else x)) ∧
    (∀ (input : UpsertGuestInput) (now : Nat) (fid gid : String) (s' : Store)
       (guest g0 : EventGuest),
      input.id = some gid → gid ≠ "" →
      s.guests.find? (fun x => x.id == gid) = some g0 →
      (∀ x ∈ s.guests, x.id = gid → x = g0) →
      upsertEventGuest (some uid) input now fid s = .ok (s', guest) →
      guest.id = g0.id ∧ guest.eventId = g0.eventId ∧ guest.createdAt = g0.createdAt ∧
      guest.name = input.name ∧ guest.email = input.email ∧
      guest.phone = input.phone ∧ guest.rsvpStatus = input.rsvpStatus ∧
      guest.notes = input.notes ∧
      guest.invitedAt = parseOptionalDate input.invitedAt ∧
      guest.respondedAt = parseOptionalDate input.respondedAt ∧
      s'.events = s.events ∧ s'.tasks = s.tasks ∧
      s'.guests = s.guests.map (fun x => if x.id = gid then guest else x)) := by
  constructor
  · intro input now fid tid s' task t0 hid hne hfind huniq h
    cases hg : getEventForUser uid input.eventId s with
    | error err =>
      simp only [upsertEventTaskHandler, requireUser, Bind.bind, Except.bind,
        hg] at h
      exact absurd h (by simp)
    | ok ev =>
      have htr : isTruthyId (some tid) = true := by simp [isTruthyId, hne]
      simp only [upsertEventTaskHandler, requireUser, Bind.bind, Except.bind,
        hg, hid, htr, if_true, Option.getD_some, hfind] at h
      by_cases hte : t0.eventId = ev.id
      · rw [if_neg (not_not_intro hte)] at h
        injection h with h
        injection h with hs htask
        subst hs
        subst htask
        refine ⟨rfl, rfl, rfl, rfl, rfl, rfl, rfl, rfl, rfl, ?_, ?_, rfl, rfl, ?_⟩
        · intro st hst
          simp [applyTaskUpdates, hst]
        · intro hst
          simp [applyTaskUpdates, hst]
        · apply List.map_congr_left
          intro x hx
          simp only [beq_iff_eq]
          by_cases hxid : x.id = tid
          · rw [if_pos hxid, if_pos hxid, huniq x hx hxid]
          · rw [if_neg hxid, if_neg hxid]
      · rw [if_pos hte] at h
        exact absurd h (by simp)
  · intro input now fid gid s' guest g0 hid hne hfind huniq h
    cases hg : getEventForUser uid input.eventId s with
    | error err =>
      simp only [upsertEventGuest, requireUser, Bind.bind, Except.bind, hg] at h
      exact absurd h (by simp)
    | ok ev =>
      have htr : isTruthyId (some gid) = true := by simp [isTruthyId, hne]
      simp only [upsertEventGuest, requireUser, Bind.bind, Except.bind,
        hg, hid, htr, if_true, Option.getD_some, hfind] at h
      by_cases hge : g0.eventId = ev.id
      · rw [if_neg (not_not_intro hge)] at h
        injection h with h
        injection h with hs hguest
        subst hs
        subst hguest
        refine ⟨rfl, rfl, rfl, rfl, rfl, rfl, rfl, rfl, rfl, rfl, rfl, rfl, ?_⟩
        apply List.map_congr_left
        intro x hx
        simp only [beq_iff_eq]
        by_cases hxid : x.id = gid
        · rw [if_pos hxid, if_pos hxid, huniq x hx hxid]
        · rw [if_neg hxid, if_neg hxid]
      · rw [if_pos hge] at h
        exact absurd h (by simp)

/-- The task returned by the witness update of "t1" (status falls back at
handler level because the handler input carries none). -/
def taskT : EventTask := applyTaskUpdates taskA taskInputNoStatus taskA.status 5

/-- The store after that task update. -/
def storeT : Store := { storeA with tasks := [taskT, taskB] }

/-- The guest returned by the witness update of "g1". -/
def guestG2 : EventGuest := applyGuestUpdates guestA guestUpdInputBob

/-- The store after that guest update. -/
def storeG2 : Store := { storeA with guests := [guestG2, guestB] }

/-- Witness for C10: updating task "t1" and guest "g1" of the concrete
store replaces every updatable field with the input's value and keeps
only id, eventId, createdAt (plus the task status fallback). -/
theorem upsertChild_update_overwrites_witness :
    (upsertEventTaskHandler (some "u1") taskInputNoStatus 5 "f1" storeA =
      .ok (storeT, taskT) ∧
     taskT.id = taskA.id ∧ taskT.eventId = taskA.eventId ∧
     taskT.createdAt = taskA.createdAt ∧
     taskT.title = taskInputNoStatus.title ∧
     taskT.description = taskInputNoStatus.description ∧
     taskT.dueDate = parseOptionalDate taskInputNoStatus.dueDate ∧
     taskT.priority = taskInputNoStatus.priority ∧
     taskT.userId = taskInputNoStatus.userId ∧
     taskT.updatedAt = 5 ∧
     (taskInputNoStatus.status = none → taskT.status = taskA.status) ∧
     storeT.events = storeA.events ∧ storeT.guests = storeA.guests ∧
     storeT.tasks = storeA.tasks.map (fun x => if x.id = "t1" then taskT else x)) ∧
    (upsertEventGuest (some "u1") guestUpdInputBob 7 "f2" storeA =
      .ok (storeG2, guestG2) ∧
     guestG2.id = guestA.id ∧ guestG2.eventId = guestA.eventId ∧
     guestG2.createdAt = guestA.createdAt ∧
     guestG2.name = guestUpdInputBob.name ∧
     guestG2.email = guestUpdInputBob.email ∧
     guestG2.phone = guestUpdInputBob.phone ∧
     guestG2.rsvpStatus = guestUpdInputBob.rsvpStatus ∧
     guestG2.notes = guestUpdInputBob.notes ∧
     guestG2.invitedAt = parseOptionalDate guestUpdInputBob.invitedAt ∧
     guestG2.respondedAt = parseOptionalDate guestUpdInputBob.respondedAt ∧
     storeG2.events = storeA.events ∧ storeG2.tasks = storeA.tasks ∧
     storeG2.guests = storeA.guests.map (fun x => if x.id = "g1" then guestG2 else x)) :=
  have hc := upsertChild_update_overwrites "u1" storeA
  have ht := hc.1 taskInputNoStatus 5 "f1" "t1" storeT taskT taskA
    (by rfl) (by decide) (by rfl) (by decide) (by rfl)
  have hg := hc.2 guestUpdInputBob 7 "f2" "g1" storeG2 guestG2 guestA
    (by rfl) (by decide) (by rfl) (by decide) (by rfl)
  ⟨⟨by rfl, ht.1, ht.2.1, ht.2.2.1, ht.2.2.2.1, ht.2.2.2.2.1, ht.2.2.2.2.2.1,
    ht.2.2.2.2.2.2.1, ht.2.2.2.2.2.2.2.1, ht.2.2.2.2.2.2.2.2.1,
    ht.2.2.2.2.2.2.2.2.2.2.1, ht.2.2.2.2.2.2.2.2.2.2.2.1,
    ht.2.2.2.2.2.2.2.2.2.2.2.2.1, ht.2.2.2.2.2.2.2.2.2.2.2.2.2⟩,
   ⟨by rfl, hg.1, hg.2.1, hg.2.2.1, hg.2.2.2.1, hg.2.2.2.2.1, hg.2.2.2.2.2.1,
    hg.2.2.2.2.2.2.1, hg.2.2.2.2.2.2.2.1, hg.2.2.2.2.2.2.2.2.1,
    hg.2.2.2.2.2.2.2.2.2.1, hg.2.2.2.2.2.2.2.2.2.2.1,
    hg.2.2.2.2.2.2.2.2.2.2.2.1, hg.2.2.2.2.2.2.2.2.2.2.2.2⟩⟩
